import Mathlib

/-!
Verification development for the Exon content-strategy backend
(`src/api/index.js`, two handler variants: one calling the OpenAI chat
endpoint and one calling the Gemini endpoint).

The JavaScript code is shallowly embedded:

* JavaScript values appearing in request bodies and JSON responses are
  modelled by the inductive type `JsVal` (with `vundefined` for `undefined`).
* Every outgoing HTTP request is answered by an oracle `Env`, one field
  per upstream endpoint; a fetch outcome is either a network error
  (`Except.error`) or an `HttpResp` whose `json` field is the outcome of
  `res.json()`.  `JSON.parse` of the LLM text content is likewise an
  oracle field, and `Date.now()` is the oracle field `now`.
* The module-level Reddit token cache `redditToken` is threaded
  explicitly as a `RedditToken` value.
* Each routine records the upstream calls it issues as a list of
  `CallEvent`s, so theorems can count calls.

Property accesses follow JavaScript semantics: `a.b` throws on
`null`/`undefined` receivers (modelled with `Except Unit`), `a?.b`
short-circuits, `x || y` tests truthiness, `Array.prototype.join`
coerces `null`/`undefined` elements to the empty string, and template
interpolation uses `String(x)` coercion.
-/

/-- A JavaScript value as it appears in request bodies and parsed JSON
responses.  `vundefined` is JavaScript `undefined`. -/
inductive JsVal where
  | vundefined : JsVal
  | vnull : JsVal
  | vbool : Bool → JsVal
  | vnum : Int → JsVal
  | vstr : String → JsVal
  | varr : List JsVal → JsVal
  | vobj : List (String × JsVal) → JsVal

namespace JsVal

/-- JavaScript truthiness. -/
def truthy : JsVal → Bool
  | .vundefined => false
  | .vnull => false
  | .vbool b => b
  | .vnum n => n != 0
  | .vstr s => s != ""
  | .varr _ => true
  | .vobj _ => true

/-- Property access `a.b`: throws (`TypeError`) when the receiver is
`null` or `undefined`; otherwise yields the property value, `vundefined`
when absent.  Arrays and strings expose `length`. -/
def jsGet : JsVal → String → Except Unit JsVal
  | .vundefined, _ => .error ()
  | .vnull, _ => .error ()
  | .vobj fs, k =>
      .ok (match fs.lookup k with
           | some v => v
           | none => .vundefined)
  | .varr xs, k => .ok (if k = "length" then .vnum xs.length else .vundefined)
  | .vstr s, k => .ok (if k = "length" then .vnum s.length else .vundefined)
  | _, _ => .ok .vundefined

/-- Optional chaining `a?.b`: `undefined` when the receiver is
`null`/`undefined`, otherwise plain property access. -/
def optGet (v : JsVal) (k : String) : Except Unit JsVal :=
  match v with
  | .vundefined => .ok .vundefined
  | .vnull => .ok .vundefined
  | _ => jsGet v k

/-- Index access `a[i]` for a natural index: throws on `null`/`undefined`
receivers, yields the element (or `vundefined` out of range) on arrays. -/
def jsIndex : JsVal → Nat → Except Unit JsVal
  | .vundefined, _ => .error ()
  | .vnull, _ => .error ()
  | .varr xs, n => .ok (xs.getD n .vundefined)
  | .vstr s, n => .ok (match s.toList.get? n with
                       | some c => .vstr (String.mk [c])
                       | none => .vundefined)
  | .vobj fs, n =>
      .ok (match fs.lookup (toString n) with
           | some v => v
           | none => .vundefined)
  | _, _ => .ok .vundefined

mutual
/-- `String(x)` coercion used by template-literal interpolation.  Arrays
coerce via `Array.prototype.join(',')`, which sends `null`/`undefined`
elements to the empty string. -/
def jsToString : JsVal → String
  | .vundefined => "undefined"
  | .vnull => "null"
  | .vbool b => if b then "true" else "false"
  | .vnum n => toString n
  | .vstr s => s
  | .varr xs => String.intercalate "," (joinStrings xs)
  | .vobj _ => "[object Object]"

/-- Element-wise `Array.prototype.join` coercion. -/
def joinStrings : List JsVal → List String
  | [] => []
  | .vundefined :: xs => "" :: joinStrings xs
  | .vnull :: xs => "" :: joinStrings xs
  | v :: xs => jsToString v :: joinStrings xs
end

/-- Total property read used where JavaScript guarantees the receiver is
neither `null` nor `undefined` (after `req.body || {}`). -/
def jsGetD (v : JsVal) (k : String) : JsVal :=
  match jsGet v k with
  | .ok r => r
  | .error _ => .vundefined

/-- `Array.isArray`. -/
def isArray : JsVal → Bool
  | .varr _ => true
  | _ => false

/-- The element list of an array value (`[]` on non-arrays; only applied
under an `isArray` guard). -/
def arrElems : JsVal → List JsVal
  | .varr xs => xs
  | _ => []

end JsVal

/-- `String.prototype.replace` with a string pattern replaces only the
first occurrence.  `sub.replace('r/','')` throws when `sub` is not a
string (no `replace` method). -/
def replaceFirst (s pat : String) : String :=
  match s.splitOn pat with
  | [] => s
  | [x] => x
  | x :: y :: rest =>
      x ++ y ++ (rest.map fun t => pat ++ t).foldl (fun a b => a ++ b) ""

/-- `sub.replace('r/', '')` on a JavaScript value: a `TypeError` unless
the receiver is a string. -/
def jsReplaceRPrefix : JsVal → Except Unit String
  | .vstr s => .ok (replaceFirst s "r/")
  | _ => .error ()

/-- An HTTP response as the handler observes it: `ok`/`statusText` from
the `Response` object, and `json` the outcome of `res.json()` (an
exception when the body is not JSON). -/
structure HttpResp where
  ok : Bool
  statusText : String
  json : Except Unit JsVal

/-- Outcome of a `fetch` call: `Except.error ()` is a network error. -/
abbrev FetchOutcome := Except Unit HttpResp

/-- `fetch(url).then(res => res.json())`: a network error or a JSON-parse
failure both reject. -/
def jsonOf (o : FetchOutcome) : Except Unit JsVal :=
  match o with
  | .error _ => .error ()
  | .ok r => r.json

/-- Oracle for the outside world: one field per upstream endpoint, plus
`JSON.parse` and `Date.now()`. -/
structure Env where
  /-- YouTube keyword video search, keyed by the query string. -/
  searchVideosResp : String → FetchOutcome
  /-- YouTube channel search (`type=channel`), keyed by the channel name. -/
  channelSearchResp : JsVal → FetchOutcome
  /-- YouTube video listing for a channel, keyed by the channel id. -/
  channelVideosResp : JsVal → FetchOutcome
  /-- Reddit client-credentials token exchange. -/
  tokenResp : FetchOutcome
  /-- Reddit hot-post listing, keyed by the cleaned subreddit name. -/
  subredditResp : String → FetchOutcome
  /-- LLM completion endpoint, keyed by the prompt. -/
  llmResp : String → FetchOutcome
  /-- `JSON.parse` on the LLM message content. -/
  jsonParse : String → Except Unit JsVal
  /-- `Date.now()`. -/
  now : Int

/-- One upstream call issued by the handler, for call counting. -/
inductive CallEvent where
  | videoSearch : String → CallEvent
  | channelFetch : JsVal → CallEvent
  | tokenExchange : CallEvent
  | subredditFetch : String → CallEvent
  | llmCall : CallEvent

open JsVal

/-- `data.items?.map(item => ({ title: item.snippet.title })) || []`
shared by the search and channel-video fetchers: optional chaining on
`items`, a `TypeError` when `items` is a truthy non-array, and a
`TypeError` inside the callback when `item.snippet` is `null`/absent. -/
def itemsToRecords (data : JsVal) : Except Unit (List JsVal) := do
  let items ← jsGet data ("items")
  match items with
  | .vundefined => pure []
  | .vnull => pure []
  | .varr xs => do
      let recs ← xs.mapM fun item => do
        let snippet ← jsGet item ("snippet")
        let title ← jsGet snippet ("title")
        pure (JsVal.vobj [("title", title)])
      pure recs
  | _ => .error ()

/-- The `catch` wrapper shared by the three fetchers: any thrown error
degrades to the empty list. -/
def orEmpty (r : Except Unit (List JsVal)) : List JsVal :=
  match r with
  | .ok vs => vs
  | .error _ => []

/-- The `try` body of `searchYouTubeVideos`. -/
def searchYouTubeVideosTry (query : String) (env : Env) : Except Unit (List JsVal) := do
  let response ← env.searchVideosResp query
  if !response.ok then .error () else do
    let data ← response.json
    itemsToRecords data

/-- `searchYouTubeVideos(query, apiKey, maxResults)`: one search request;
any error (network, non-OK status, body not JSON, malformed shape) is
caught and yields `[]`. -/
def searchYouTubeVideos (query : String) (env : Env) :
    List JsVal × List CallEvent :=
  (orEmpty (searchYouTubeVideosTry query env), [CallEvent.videoSearch query])

/-- Does `!channelResponse.items || channelResponse.items.length === 0`
hold?  (Evaluated only once `channelResponse.items` did not throw.) -/
def noChannelMatch (items : JsVal) : Bool :=
  !items.truthy ||
    (match jsGet items ("length") with
     | .ok (.vnum n) => n == 0
     | _ => false)

/-- The `try` body of `getChannelVideos`. -/
def getChannelVideosTry (channelName : JsVal) (env : Env) : Except Unit (List JsVal) := do
  let channelResponse ← jsonOf (env.channelSearchResp channelName)
  let items ← jsGet channelResponse ("items")
  if noChannelMatch items then pure [] else do
    let first ← jsIndex items 0
    let idObj ← jsGet first ("id")
    let channelId ← jsGet idObj ("channelId")
    let videosResponse ← jsonOf (env.channelVideosResp channelId)
    itemsToRecords videosResponse

/-- `getChannelVideos(channelName, apiKey, maxResults)`: resolve the
channel by a search call, then list its videos; `[]` when the channel is
not found, and any thrown error is caught and yields `[]`. -/
def getChannelVideos (channelName : JsVal) (env : Env) :
    List JsVal × List CallEvent :=
  (orEmpty (getChannelVideosTry channelName env), [CallEvent.channelFetch channelName])

/-- The module-level token cache `let redditToken = { value: null,
expires: 0 }`. -/
structure RedditToken where
  value : JsVal
  expires : Int

/-- The cache as initialised at module load. -/
def redditTokenInit : RedditToken := { value := .vnull, expires := 0 }

/-- `getRedditAccessToken(clientId, clientSecret)`: return the cached
token while it is truthy and unexpired; otherwise exchange credentials,
store the fresh token for 50 minutes, and on any failure return `null`
leaving the cache untouched. -/
def getRedditAccessToken (env : Env) (st : RedditToken) :
    JsVal × RedditToken × List CallEvent :=
  if st.value.truthy && decide (st.expires > env.now) then
    (st.value, st, [])
  else
    let evs := [CallEvent.tokenExchange]
    let attempt : Except Unit (JsVal × RedditToken) := do
      let response ← jsonOf env.tokenResp
      let tok ← jsGet response ("access_token")
      if !tok.truthy then .error () else
        pure (tok, { value := tok, expires := env.now + 50 * 60 * 1000 })
    match attempt with
    | .ok (tok, st') => (tok, st', evs)
    | .error _ => (.vnull, st, evs)

/-- `response.data?.children?.map(post => ({ title: post.data.title })) || []`
applied to the parsed hot-post body. -/
def subredditRecords (response : JsVal) : Except Unit (List JsVal) := do
  let d ← jsGet response ("data")
  let children ← optGet d ("children")
  match children with
  | .vundefined => pure []
  | .vnull => pure []
  | .varr xs => do
      let recs ← xs.mapM fun post => do
        let pd ← jsGet post ("data")
        let title ← jsGet pd ("title")
        pure (JsVal.vobj [("title", title)])
      pure recs
  | _ => .error ()

/-- The `try` body of `getSubredditPosts` (note: `response.ok` is never
consulted here — the body is processed whatever the HTTP status). -/
def getSubredditPostsTry (subreddit : String) (env : Env) : Except Unit (List JsVal) := do
  let response ← jsonOf (env.subredditResp subreddit)
  subredditRecords response

/-- `getSubredditPosts(subreddit, accessToken, limit)`: one hot-post
request, with every thrown error caught and turned into `[]`. -/
def getSubredditPosts (subreddit : String) (env : Env) :
    List JsVal × List CallEvent :=
  (orEmpty (getSubredditPostsTry subreddit env), [CallEvent.subredditFetch subreddit])

/-- The normalized error message raised by `callOpenAI_API`. -/
def openAIFailMsg : String := "Failed to get a valid response from the OpenAI API."

/-- The normalized error message raised by `callGeminiAPI`. -/
def geminiFailMsg : String := "Failed to get a valid response from the Gemini API."

/-- The `catch` wrapper of the synthesis calls: any thrown error is
normalized into the single message `msg`. -/
def normalizeErr (msg : String) (r : Except Unit JsVal) : Except String JsVal :=
  match r with
  | .ok v => .ok v
  | .error _ => .error msg

/-- `data.choices[0].message.content` of the OpenAI response body. -/
def llmContent (data : JsVal) : Except Unit JsVal := do
  let choices ← jsGet data ("choices")
  let c0 ← jsIndex choices 0
  let message ← jsGet c0 ("message")
  jsGet message ("content")

/-- The `try` body of `callOpenAI_API`. -/
def callOpenAI_APITry (prompt : String) (env : Env) : Except Unit JsVal := do
  let response ← env.llmResp prompt
  if !response.ok then .error () else do
    let data ← response.json
    let content ← llmContent data
    env.jsonParse (jsToString content)

/-- `callOpenAI_API(prompt, apiKey)`: one completion request; extracts
`data.choices[0].message.content` and `JSON.parse`s it; every failure
(network, non-OK status, non-JSON body, malformed shape, unparseable
content) is normalized into the single error `openAIFailMsg`. -/
def callOpenAI_API (prompt : String) (env : Env) :
    Except String JsVal × List CallEvent :=
  (normalizeErr openAIFailMsg (callOpenAI_APITry prompt env), [CallEvent.llmCall])

/-- The `try` body of `callGeminiAPI`. -/
def callGeminiAPITry (prompt : String) (env : Env) : Except Unit JsVal := do
  let response ← env.llmResp prompt
  if !response.ok then .error () else do
    let data ← response.json
    let candidates ← jsGet data ("candidates")
    let c0 ← jsIndex candidates 0
    let content ← jsGet c0 ("content")
    let parts ← jsGet content ("parts")
    let p0 ← jsIndex parts 0
    let text ← jsGet p0 ("text")
    env.jsonParse (jsToString text)

/-- `callGeminiAPI(prompt, apiKey)`: extracts
`data.candidates[0].content.parts[0].text` and `JSON.parse`s it; every
failure is normalized into the single error `geminiFailMsg`. -/
def callGeminiAPI (prompt : String) (env : Env) :
    Except String JsVal × List CallEvent :=
  (normalizeErr geminiFailMsg (callGeminiAPITry prompt env), [CallEvent.llmCall])

/-- `[...].map(v => v.title).join(', ')` applied to a list of video/post
records (each constructed as `{ title: ... }`, so the property read
cannot throw). -/
def titlesJoined (records : List JsVal) : String :=
  String.intercalate ", " (joinStrings (records.map fun v => jsGetD v ("title")))

/-- `competitorVideosData.map(c => `${c.channel}: ${...}`).join(' | ')`. -/
def competitorTitlesString (competitorVideosData : List (JsVal × List JsVal)) : String :=
  String.intercalate " | "
    (competitorVideosData.map fun c => jsToString c.1 ++ ": " ++ titlesJoined c.2)

/-- `redditPostsData.map(s => `${s.subreddit}: ${...}`).join(' | ')`. -/
def redditTitlesString (redditPostsData : List (JsVal × List JsVal)) : String :=
  String.intercalate " | "
    (redditPostsData.map fun s => jsToString s.1 ++ ": " ++ titlesJoined s.2)

/-- `x || fallback` on an already-string interpolation operand: the only
falsy string is the empty string. -/
def sectionOr (s fallback : String) : String :=
  if s = "" then fallback else s

/-- The fallback placeholder of the OpenAI-variant prompt. -/
def noDataStr : String := "No data collected."

/-- The fallback placeholder of the Gemini-variant prompt. -/
def naStr : String := "N/A"

/-- The `masterPrompt` template literal of the OpenAI variant
(`src/api/index.js` lines 137-163), with the three data sections
defaulting to `"No data collected."` when empty. -/
def masterPrompt (audience goal : JsVal)
    (topVideoTitles competitorVideoTitles redditPostTitles : String) : String :=
  "\nYou are a world-class content strategist and data analyst named Exon. Your task is to generate a complete content strategy.\nI have provided real-time data from YouTube and Reddit. You must simulate the data for X (Twitter) and Google Trends based on your expert knowledge.\n\nClient Details:\n- Target Audience: "
  ++ jsToString audience
  ++ "\n- Primary Goal: "
  ++ jsToString goal
  ++ "\n\nLive Data Collected:\n- Top YouTube Videos: "
  ++ sectionOr topVideoTitles noDataStr
  ++ "\n- Competitor YouTube Videos: "
  ++ sectionOr competitorVideoTitles noDataStr
  ++ "\n- Top Reddit Posts: "
  ++ sectionOr redditPostTitles noDataStr
  ++ "\n\nBased on all of this, provide a response in a single, valid JSON object with the following four keys: \"trendDiscovery\", \"contentAnalysis\", \"competitorReport\", \"strategyCalendar\".\n\n1. \"trendDiscovery\": An object for trend analysis.\n   - \"youtubeTrends\": Analyze the provided LIVE YouTube data to identify 3-5 key trends.\n   - \"redditTrends\": Analyze the provided LIVE Reddit data to identify 3-5 key community topics.\n   - \"simulatedXTrends\": Act as an expert on X (Twitter). Simulate the top 3-5 trending topics relevant to the target audience.\n   - \"simulatedGoogleTrends\": Act as a search analyst. Simulate the top 3-5 rising search queries on Google Trends.\n\n2. \"contentAnalysis\": An object that deconstructs successful content (winningFormats, toneOfVoice, engagementTriggers, optimalTiming).\n\n3. \"competitorReport\": An object analyzing the specified competitors (youtubeCompetitorAnalysis, inferredXStrategy).\n\n4. \"strategyCalendar\": An array of 30 objects for a 30-day content plan. Each object must have the following structure: \x7b \"day\": number, \"platform\": \"YouTube/Instagram/Reddit\", \"title\": \"A catchy, fully-formed content title\", \"format\": \"e.g., YouTube Short, IG Reel\", \"description\": \"A 1-2 sentence description.\" \x7d\n"

/-- The `masterPrompt` template literal of the Gemini variant
(lines 335-366), with the data sections defaulting to `"N/A"`. -/
def masterPromptGemini (audience goal : JsVal)
    (topVideoTitles competitorVideoTitles redditPostTitles : String) : String :=
  "\nYou are a world-class content strategist and data analyst. I have gathered real-time data from YouTube and Reddit for a client. Your task is to generate a complete content strategy based on this data and your own expert knowledge.\n\nClient Details:\n- Target Audience: "
  ++ jsToString audience
  ++ "\n- Primary Goal: "
  ++ jsToString goal
  ++ "\n\nLive Data Collected:\n- Top YouTube Videos: "
  ++ sectionOr topVideoTitles naStr
  ++ "\n- Competitor YouTube Videos: "
  ++ sectionOr competitorVideoTitles naStr
  ++ "\n- Top Reddit Posts: "
  ++ sectionOr redditPostTitles naStr
  ++ "\n\nBased on all of this, provide a response in a single JSON object with the following four keys: \"trendDiscovery\", \"contentAnalysis\", \"competitorReport\", \"strategyCalendar\".\n\n1. \"trendDiscovery\": An object containing trend analysis from four key platforms.\n   - \"youtubeTrends\": Analyze the provided YouTube data to identify 3-5 key trends.\n   - \"redditTrends\": Analyze the provided Reddit data to identify 3-5 key community topics and sentiments.\n   - \"simulatedXTrends\": Act as an expert on X (Twitter). Based on your knowledge, simulate the top 3-5 trending topics and content formats (e.g., threads, memes) relevant to the target audience on X right now.\n   - \"simulatedGoogleTrends\": Act as an expert search analyst. Based on your knowledge, simulate the top 3-5 rising search queries on Google Trends relevant to the target audience.\n\n2. \"contentAnalysis\": An object that deconstructs what makes high-performing content successful.\n   - \"winningFormats\": Identify the most effective content formats.\n   - \"toneOfVoice\": Describe the most successful tone of voice.\n   - \"engagementTriggers\": List common engagement triggers.\n   - \"optimalTiming\": Suggest the best days and times to post.\n\n3. \"competitorReport\": An object analyzing the specified competitors.\n   - \"youtubeCompetitorAnalysis\": Summarize their content strategy, topic focus, and posting frequency.\n   - \"inferredXStrategy\": Infer what their strategy on X would likely be.\n\n4. \"strategyCalendar\": An array of 30 objects, representing a full 30-day content plan. Each object must have the following structure: \x7b \"day\": number, \"platform\": \"YouTube/Instagram/Reddit\", \"title\": \"A catchy, fully-formed content title\", \"format\": \"e.g., YouTube Short, IG Reel, Reddit Thread\", \"description\": \"A 1-2 sentence description.\" \x7d\n"

/-- `process.env` as both handler variants read it: each value is a
string or absent. -/
structure Config where
  YOUTUBE_API_KEY : Option String
  REDDIT_CLIENT_ID : Option String
  REDDIT_CLIENT_SECRET : Option String
  OPENAI_API_KEY : Option String
  GEMINI_API_KEY : Option String

/-- Truthiness of an environment-variable value (`!X` in the secrets
check): absent or empty is falsy. -/
def envTruthy : Option String → Bool
  | none => false
  | some s => s != ""

/-- The secrets check of the OpenAI variant:
`YOUTUBE_API_KEY && REDDIT_CLIENT_ID && REDDIT_CLIENT_SECRET && OPENAI_API_KEY`
all truthy. -/
def secretsOk (cfg : Config) : Bool :=
  envTruthy cfg.YOUTUBE_API_KEY && envTruthy cfg.REDDIT_CLIENT_ID
    && envTruthy cfg.REDDIT_CLIENT_SECRET && envTruthy cfg.OPENAI_API_KEY

/-- The secrets check of the Gemini variant (`GEMINI_API_KEY` in place
of `OPENAI_API_KEY`). -/
def secretsOkGemini (cfg : Config) : Bool :=
  envTruthy cfg.YOUTUBE_API_KEY && envTruthy cfg.REDDIT_CLIENT_ID
    && envTruthy cfg.REDDIT_CLIENT_SECRET && envTruthy cfg.GEMINI_API_KEY

/-- The inbound request as the handler observes it. -/
structure Req where
  method : String
  body : JsVal

/-- `req.body || {}`. -/
def coercedBody (req : Req) : JsVal :=
  if req.body.truthy then req.body else .vobj []

/-- One field of the destructuring
`const { audience, goal, competitorYouTubeChannels, relevantSubreddits } = req.body || {}`
(the coerced body is never `null`/`undefined`, so the access cannot
throw). -/
def bodyField (req : Req) (k : String) : JsVal :=
  jsGetD (coercedBody req) k

/-- The response sent back: status code plus JSON body (`none` for the
bare `res.status(204).end()` of the preflight branch). -/
structure HRes where
  status : Nat
  body : Option JsVal

/-- Body of the 405 response. -/
def methodNotAllowedBody : JsVal := .vobj [("error", .vstr "Method Not Allowed")]

/-- Body of the 400 response. -/
def invalidBodyResponse : JsVal :=
  .vobj [("error", .vstr "Invalid request body. Ensure all required fields are present.")]

/-- Body of the 500 response for missing secrets. -/
def configErrorBody : JsVal := .vobj [("error", .vstr "Server configuration error.")]

/-- Body of the catch-all 500 response:
`{ error: 'An internal server error occurred.', details: error.message }`. -/
def internalErrorBody (details : String) : JsVal :=
  .vobj [("error", .vstr "An internal server error occurred."), ("details", .vstr details)]

/-- `competitorYouTubeChannels.map(channel => getChannelVideos(...).then(videos => ({channel, videos})))`:
one `getChannelVideos` invocation per element, pairing each channel with
its videos. -/
def fetchChannels (channels : List JsVal) (env : Env) :
    List (JsVal × List JsVal) × List CallEvent :=
  match channels with
  | [] => ([], [])
  | c :: rest =>
      let (videos, ev) := getChannelVideos c env
      let (restData, evs) := fetchChannels rest env
      ((c, videos) :: restData, ev ++ evs)

/-- `relevantSubreddits.map(sub => getSubredditPosts(sub.replace('r/',''), token, 3).then(posts => ({subreddit: sub, posts})))`:
the `.map` evaluates `sub.replace` synchronously for each element in
order, so a non-string element throws a `TypeError` before the calls for
later elements are issued (earlier calls have already been issued). -/
def fetchSubreddits (subs : List JsVal) (env : Env) :
    Except String (List (JsVal × List JsVal)) × List CallEvent :=
  match subs with
  | [] => (.ok [], [])
  | sub :: rest =>
      match jsReplaceRPrefix sub with
      | .error _ => (.error "sub.replace is not a function", [])
      | .ok cleaned =>
          let (posts, ev) := getSubredditPosts cleaned env
          let (restRes, evs) := fetchSubreddits rest env
          match restRes with
          | .error e => (.error e, ev ++ evs)
          | .ok l => (.ok ((sub, posts) :: l), ev ++ evs)

/-- The body of the `try` block after validation and the secrets check,
OpenAI variant: the fan-out data collection (sequentialized in program
order: keyword search, per-channel fetches, token acquisition, then
per-subreddit fetches), prompt assembly, and the synthesis call.  A
thrown error anywhere is caught by the top-level `catch` and turned into
the 500 internal-error response. -/
def dataPipeline (audience goal : JsVal) (channels subs : List JsVal)
    (env : Env) (st : RedditToken) : HRes × RedditToken × List CallEvent :=
  let query := jsToString audience ++ " " ++ jsToString goal
  let topVideos := (searchYouTubeVideos query env).1
  let ev1 := (searchYouTubeVideos query env).2
  let competitorVideosData := (fetchChannels channels env).1
  let ev2 := (fetchChannels channels env).2
  let token := (getRedditAccessToken env st).1
  let st2 := (getRedditAccessToken env st).2.1
  let ev3 := (getRedditAccessToken env st).2.2
  let redditRes := if token.truthy then (fetchSubreddits subs env).1 else .ok []
  let ev4 := if token.truthy then (fetchSubreddits subs env).2 else []
  match redditRes with
  | .error msg =>
      ({ status := 500, body := some (internalErrorBody msg) }, st2,
        ev1 ++ ev2 ++ ev3 ++ ev4)
  | .ok redditPostsData =>
      let topVideoTitles := titlesJoined topVideos
      let competitorVideoTitles := competitorTitlesString competitorVideosData
      let redditPostTitles := redditTitlesString redditPostsData
      let prompt := masterPrompt audience goal topVideoTitles competitorVideoTitles redditPostTitles
      match (callOpenAI_API prompt env).1 with
      | .error msg =>
          ({ status := 500, body := some (internalErrorBody msg) }, st2,
            ev1 ++ ev2 ++ ev3 ++ ev4 ++ (callOpenAI_API prompt env).2)
      | .ok v =>
          ({ status := 200, body := some v }, st2,
            ev1 ++ ev2 ++ ev3 ++ ev4 ++ (callOpenAI_API prompt env).2)

/-- The OpenAI-variant serverless handler (`module.exports`): CORS
preflight, method check, body validation, secrets check, then the data
pipeline.  Results: the response sent, the token cache afterwards, and
the upstream calls issued. -/
def handler (req : Req) (cfg : Config) (env : Env) (st : RedditToken) :
    HRes × RedditToken × List CallEvent :=
  if req.method = "OPTIONS" then
    ({ status := 204, body := none }, st, [])
  else if req.method ≠ "POST" then
    ({ status := 405, body := some methodNotAllowedBody }, st, [])
  else
    let audience := bodyField req ("audience")
    let goal := bodyField req ("goal")
    let competitorYouTubeChannels := bodyField req ("competitorYouTubeChannels")
    let relevantSubreddits := bodyField req ("relevantSubreddits")
    if !audience.truthy || !goal.truthy || !competitorYouTubeChannels.isArray
        || !relevantSubreddits.isArray then
      ({ status := 400, body := some invalidBodyResponse }, st, [])
    else if !(secretsOk cfg) then
      ({ status := 500, body := some configErrorBody }, st, [])
    else
      dataPipeline audience goal competitorYouTubeChannels.arrElems
        relevantSubreddits.arrElems env st

/-- The Gemini-variant pipeline: identical orchestration with the Gemini
prompt wording and synthesis call. -/
def dataPipelineGemini (audience goal : JsVal) (channels subs : List JsVal)
    (env : Env) (st : RedditToken) : HRes × RedditToken × List CallEvent :=
  let query := jsToString audience ++ " " ++ jsToString goal
  let topVideos := (searchYouTubeVideos query env).1
  let ev1 := (searchYouTubeVideos query env).2
  let competitorVideosData := (fetchChannels channels env).1
  let ev2 := (fetchChannels channels env).2
  let token := (getRedditAccessToken env st).1
  let st2 := (getRedditAccessToken env st).2.1
  let ev3 := (getRedditAccessToken env st).2.2
  let redditRes := if token.truthy then (fetchSubreddits subs env).1 else .ok []
  let ev4 := if token.truthy then (fetchSubreddits subs env).2 else []
  match redditRes with
  | .error msg =>
      ({ status := 500, body := some (internalErrorBody msg) }, st2,
        ev1 ++ ev2 ++ ev3 ++ ev4)
  | .ok redditPostsData =>
      let topVideoTitles := titlesJoined topVideos
      let competitorVideoTitles := competitorTitlesString competitorVideosData
      let redditPostTitles := redditTitlesString redditPostsData
      let prompt := masterPromptGemini audience goal topVideoTitles competitorVideoTitles redditPostTitles
      match (callGeminiAPI prompt env).1 with
      | .error msg =>
          ({ status := 500, body := some (internalErrorBody msg) }, st2,
            ev1 ++ ev2 ++ ev3 ++ ev4 ++ (callGeminiAPI prompt env).2)
      | .ok v =>
          ({ status := 200, body := some v }, st2,
            ev1 ++ ev2 ++ ev3 ++ ev4 ++ (callGeminiAPI prompt env).2)

/-- The Gemini-variant serverless handler, reading `GEMINI_API_KEY`
instead of `OPENAI_API_KEY`. -/
def handlerGemini (req : Req) (cfg : Config) (env : Env) (st : RedditToken) :
    HRes × RedditToken × List CallEvent :=
  if req.method = "OPTIONS" then
    ({ status := 204, body := none }, st, [])
  else if req.method ≠ "POST" then
    ({ status := 405, body := some methodNotAllowedBody }, st, [])
  else
    let audience := bodyField req ("audience")
    let goal := bodyField req ("goal")
    let competitorYouTubeChannels := bodyField req ("competitorYouTubeChannels")
    let relevantSubreddits := bodyField req ("relevantSubreddits")
    if !audience.truthy || !goal.truthy || !competitorYouTubeChannels.isArray
        || !relevantSubreddits.isArray then
      ({ status := 400, body := some invalidBodyResponse }, st, [])
    else if !(secretsOkGemini cfg) then
      ({ status := 500, body := some configErrorBody }, st, [])
    else
      dataPipelineGemini audience goal competitorYouTubeChannels.arrElems
        relevantSubreddits.arrElems env st

/-- Count the events satisfying a predicate. -/
def countEvents (p : CallEvent → Bool) (evs : List CallEvent) : Nat :=
  (evs.filter p).length

/-- Is the event a keyword video search? -/
def isVideoSearch : CallEvent → Bool
  | .videoSearch _ => true
  | _ => false

/-- Is the event a channel-video fetch (one per `getChannelVideos`
invocation)? -/
def isChannelFetch : CallEvent → Bool
  | .channelFetch _ => true
  | _ => false

/-- Is the event a Reddit token exchange? -/
def isTokenExchange : CallEvent → Bool
  | .tokenExchange => true
  | _ => false

/-- Is the event a subreddit hot-post fetch? -/
def isSubredditFetch : CallEvent → Bool
  | .subredditFetch _ => true
  | _ => false

/-- Is the event the LLM synthesis call? -/
def isLlmCall : CallEvent → Bool
  | .llmCall => true
  | _ => false

/-- A request that reaches the data pipeline: `POST`, truthy `audience`
and `goal`, array-typed channel and subreddit fields. -/
def validPost (req : Req) : Prop :=
  req.method = "POST"
    ∧ (bodyField req ("audience")).truthy = true
    ∧ (bodyField req ("goal")).truthy = true
    ∧ (bodyField req ("competitorYouTubeChannels")).isArray = true
    ∧ (bodyField req ("relevantSubreddits")).isArray = true

/-- The cached Reddit token is served without an exchange: truthy value
with an expiry strictly in the future. -/
def cacheValid (env : Env) (st : RedditToken) : Prop :=
  st.value.truthy = true ∧ st.expires > env.now

/-- The credential exchange succeeds: the response body parses as JSON
and carries a truthy `access_token`. -/
def exchangeSucceeds (env : Env) : Prop :=
  ∃ resp tok, jsonOf env.tokenResp = .ok resp
    ∧ jsGet resp ("access_token") = .ok tok ∧ tok.truthy = true

/-- The credential exchange fails: network/JSON error, a `null` body, or
a missing/falsy `access_token`. -/
def exchangeFails (env : Env) : Prop :=
  jsonOf env.tokenResp = .error ()
    ∨ ∃ resp, jsonOf env.tokenResp = .ok resp
        ∧ (jsGet resp ("access_token") = .error ()
           ∨ ∃ tok, jsGet resp ("access_token") = .ok tok ∧ tok.truthy = false)

theorem countEvents_nil (p : CallEvent → Bool) : countEvents p [] = 0 := rfl

theorem countEvents_append (p : CallEvent → Bool) (a b : List CallEvent) :
    countEvents p (a ++ b) = countEvents p a + countEvents p b := by
  simp [countEvents]

theorem countEvents_map_true {α : Type} (p : CallEvent → Bool) (f : α → CallEvent)
    (l : List α) (h : ∀ x, p (f x) = true) :
    countEvents p (l.map f) = l.length := by
  induction l with
  | nil => rfl
  | cons x xs ih => simp [countEvents, List.filter_cons, h x] at ih ⊢; omega

theorem countEvents_map_false {α : Type} (p : CallEvent → Bool) (f : α → CallEvent)
    (l : List α) (h : ∀ x, p (f x) = false) :
    countEvents p (l.map f) = 0 := by
  induction l with
  | nil => rfl
  | cons x xs ih => simpa [countEvents, List.filter_cons, h x] using ih

/-- The channel fan-out issues exactly one `getChannelVideos` invocation
per configured channel, in order. -/
theorem fetchChannels_events (channels : List JsVal) (env : Env) :
    (fetchChannels channels env).2 = channels.map CallEvent.channelFetch := by
  induction channels with
  | nil => rfl
  | cons c rest ih => simp [fetchChannels, getChannelVideos, ih]

/-- Every call the subreddit fan-out makes is a subreddit fetch. -/
theorem fetchSubreddits_events_shape (subs : List JsVal) (env : Env) :
    ∃ names : List String,
      (fetchSubreddits subs env).2 = names.map CallEvent.subredditFetch := by
  induction subs with
  | nil => exact ⟨[], rfl⟩
  | cons sub rest ih =>
      obtain ⟨names, hnames⟩ := ih
      cases hrep : jsReplaceRPrefix sub with
      | error u => exact ⟨[], by simp [fetchSubreddits, hrep]⟩
      | ok cleaned =>
          rcases hrest : fetchSubreddits rest env with ⟨r, evs⟩
          rw [hrest] at hnames
          cases r with
          | error e =>
              exact ⟨cleaned :: names, by
                simp [fetchSubreddits, hrep, hrest, getSubredditPosts, hnames]⟩
          | ok l =>
              exact ⟨cleaned :: names, by
                simp [fetchSubreddits, hrep, hrest, getSubredditPosts, hnames]⟩

/-- When every subreddit entry is a string, the fan-out throws nothing
and issues exactly one fetch per entry. -/
theorem fetchSubreddits_strings (subs : List JsVal) (env : Env)
    (h : ∀ x ∈ subs, ∃ s, x = JsVal.vstr s) :
    (∃ l, (fetchSubreddits subs env).1 = .ok l)
      ∧ ∃ names : List String,
          (fetchSubreddits subs env).2 = names.map CallEvent.subredditFetch
            ∧ names.length = subs.length := by
  induction subs with
  | nil => exact ⟨⟨[], rfl⟩, [], rfl, rfl⟩
  | cons sub rest ih =>
      obtain ⟨s, hs⟩ := h sub (List.mem_cons_self sub rest)
      obtain ⟨⟨l, hl⟩, names, hnames, hlen⟩ :=
        ih (fun x hx => h x (List.mem_cons_of_mem sub hx))
      rcases hrest : fetchSubreddits rest env with ⟨r, evs⟩
      rw [hrest] at hl hnames
      simp only at hl hnames
      subst hs
      refine ⟨⟨(JsVal.vstr s, (getSubredditPosts (replaceFirst s "r/") env).1) :: l, ?_⟩,
        replaceFirst s "r/" :: names, ?_, ?_⟩
      · simp [fetchSubreddits, jsReplaceRPrefix, hrest, hl]
      · simp [fetchSubreddits, jsReplaceRPrefix, hrest, hl, getSubredditPosts, hnames]
      · simp [hlen]

@[simp]
theorem exceptBind_ok {ε α β : Type} (a : α) (f : α → Except ε β) :
    (Except.ok a >>= f) = f a := rfl

@[simp]
theorem exceptBind_error {ε α β : Type} (u : ε) (f : α → Except ε β) :
    ((Except.error u : Except ε α) >>= f) = .error u := rfl

@[simp]
theorem exceptPure {ε α : Type} (a : α) :
    (pure a : Except ε α) = .ok a := rfl

/-- Cache hit: the cached token is returned, the cache is untouched, and
no exchange call is issued. -/
theorem getRedditAccessToken_hit (env : Env) (st : RedditToken)
    (h : cacheValid env st) :
    getRedditAccessToken env st = (st.value, st, []) := by
  obtain ⟨h1, h2⟩ := h
  simp [getRedditAccessToken, h1, h2]

/-- The boolean guard of the cache, phrased from `¬ cacheValid`. -/
theorem cache_guard_false (env : Env) (st : RedditToken)
    (hmiss : ¬ cacheValid env st) :
    (st.value.truthy && decide (st.expires > env.now)) = false := by
  cases h : st.value.truthy
  · simp
  · simp only [h, Bool.true_and, decide_eq_false_iff_not]
    intro hgt
    exact hmiss ⟨h, hgt⟩

/-- Cache miss with a successful exchange: the fresh token is stored for
50 minutes and returned, and exactly one exchange call is issued. -/
theorem getRedditAccessToken_refresh (env : Env) (st : RedditToken)
    (hmiss : ¬ cacheValid env st) (resp tok : JsVal)
    (hresp : jsonOf env.tokenResp = .ok resp)
    (htok : jsGet resp ("access_token") = .ok tok) (htr : tok.truthy = true) :
    getRedditAccessToken env st =
      (tok, { value := tok, expires := env.now + 50 * 60 * 1000 },
        [CallEvent.tokenExchange]) := by
  rw [getRedditAccessToken, if_neg (by rw [cache_guard_false env st hmiss]; simp)]
  simp [hresp, htok, htr]

/-- Cache miss with a failed exchange: `null` is returned and the cache
is left untouched, after exactly one exchange call. -/
theorem getRedditAccessToken_fail (env : Env) (st : RedditToken)
    (hmiss : ¬ cacheValid env st) (hf : exchangeFails env) :
    getRedditAccessToken env st = (.vnull, st, [CallEvent.tokenExchange]) := by
  rw [getRedditAccessToken, if_neg (by rw [cache_guard_false env st hmiss]; simp)]
  rcases hf with h | ⟨resp, hresp, h | ⟨tok, htok, htr⟩⟩
  · simp [h]
  · simp [hresp, h]
  · simp [hresp, htok, htr]

/-- The token cache is only ever overwritten by a successful exchange:
either the state is unchanged, or the exchange returned a truthy token
that is now stored with the fixed 50-minute window and returned. -/
theorem getRedditAccessToken_state (env : Env) (st : RedditToken) :
    (getRedditAccessToken env st).2.1 = st
      ∨ ∃ resp tok, jsonOf env.tokenResp = .ok resp
          ∧ jsGet resp ("access_token") = .ok tok ∧ tok.truthy = true
          ∧ (getRedditAccessToken env st).2.1
              = { value := tok, expires := env.now + 50 * 60 * 1000 }
          ∧ (getRedditAccessToken env st).1 = tok := by
  rw [getRedditAccessToken]
  cases hguard : (st.value.truthy && decide (st.expires > env.now))
  · simp only [Bool.false_eq_true, if_false]
    cases hresp : jsonOf env.tokenResp with
    | error u => simp [hresp]
    | ok resp =>
        cases htok : jsGet resp ("access_token") with
        | error u => simp [hresp, htok]
        | ok tok =>
            cases htr : tok.truthy
            · simp [hresp, htok, htr]
            · right
              exact ⟨resp, tok, rfl, htok, htr,
                by simp [hresp, htok, htr], by simp [hresp, htok, htr]⟩
  · simp

theorem countEvents_cons (p : CallEvent → Bool) (e : CallEvent) (l : List CallEvent) :
    countEvents p (e :: l) = (if p e then 1 else 0) + countEvents p l := by
  simp only [countEvents, List.filter_cons]
  split <;> simp [Nat.add_comm]

/-- The full event trace of the OpenAI pipeline: one keyword search, one
channel fetch per channel, the token-acquisition events, the subreddit
events when a token was obtained, and the synthesis call unless the
subreddit fan-out threw. -/
theorem dataPipeline_events (a g : JsVal) (channels subs : List JsVal)
    (env : Env) (st : RedditToken) :
    (dataPipeline a g channels subs env st).2.2 =
      CallEvent.videoSearch (jsToString a ++ " " ++ jsToString g)
        :: (channels.map CallEvent.channelFetch
          ++ (getRedditAccessToken env st).2.2
          ++ (if (getRedditAccessToken env st).1.truthy
              then (fetchSubreddits subs env).2 else [])
          ++ (match (if (getRedditAccessToken env st).1.truthy
                     then (fetchSubreddits subs env).1 else Except.ok []) with
              | .error _ => []
              | .ok _ => [CallEvent.llmCall])) := by
  unfold dataPipeline
  cases htok : (getRedditAccessToken env st).1.truthy
  · simp only [htok, Bool.false_eq_true, if_false]
    simp [searchYouTubeVideos, fetchChannels_events, callOpenAI_API]
    split <;> rfl
  · cases hsub : (fetchSubreddits subs env).1 with
    | error e => simp [htok, hsub, searchYouTubeVideos, fetchChannels_events]
    | ok l =>
        simp [htok, hsub, searchYouTubeVideos, fetchChannels_events, callOpenAI_API]
        split <;> rfl

/-- Event counts decompose over the pipeline stages. -/
theorem dataPipeline_count_decomp (p : CallEvent → Bool) (a g : JsVal)
    (channels subs : List JsVal) (env : Env) (st : RedditToken) :
    countEvents p (dataPipeline a g channels subs env st).2.2 =
      (if p (CallEvent.videoSearch (jsToString a ++ " " ++ jsToString g)) then 1 else 0)
      + countEvents p (channels.map CallEvent.channelFetch)
      + countEvents p (getRedditAccessToken env st).2.2
      + countEvents p (if (getRedditAccessToken env st).1.truthy
                       then (fetchSubreddits subs env).2 else [])
      + countEvents p (match (if (getRedditAccessToken env st).1.truthy
                              then (fetchSubreddits subs env).1 else Except.ok []) with
                       | .error _ => []
                       | .ok _ => [CallEvent.llmCall]) := by
  rw [dataPipeline_events, countEvents_cons, countEvents_append, countEvents_append,
    countEvents_append]
  omega

/-- A valid `POST` request with all four secrets present reaches the
data pipeline with the destructured fields. -/
theorem handler_valid (req : Req) (cfg : Config) (env : Env) (st : RedditToken)
    (hv : validPost req) (hk : secretsOk cfg = true) :
    handler req cfg env st =
      dataPipeline (bodyField req ("audience")) (bodyField req ("goal"))
        (bodyField req ("competitorYouTubeChannels")).arrElems
        (bodyField req ("relevantSubreddits")).arrElems env st := by
  obtain ⟨hm, ha, hg, hc, hs⟩ := hv
  simp [handler, hm, ha, hg, hc, hs, hk]

/-- Every handler run either issues no upstream call at all (preflight,
wrong method, 400, missing secrets) or runs the data pipeline. -/
theorem handler_trace_cases (req : Req) (cfg : Config) (env : Env) (st : RedditToken) :
    (handler req cfg env st).2.2 = []
      ∨ handler req cfg env st
          = dataPipeline (bodyField req ("audience")) (bodyField req ("goal"))
              (bodyField req ("competitorYouTubeChannels")).arrElems
              (bodyField req ("relevantSubreddits")).arrElems env st := by
  simp only [handler]
  split
  · exact Or.inl rfl
  · split
    · exact Or.inl rfl
    · split
      · exact Or.inl rfl
      · split
        · exact Or.inl rfl
        · exact Or.inr rfl

/-- A configuration with all secrets present. -/
def cfgAll : Config :=
  { YOUTUBE_API_KEY := some "yt", REDDIT_CLIENT_ID := some "rid",
    REDDIT_CLIENT_SECRET := some "rsec", OPENAI_API_KEY := some "oak",
    GEMINI_API_KEY := some "gk" }

/-- An oracle where every upstream call fails with a network error. -/
def envErr : Env :=
  { searchVideosResp := fun _ => .error (), channelSearchResp := fun _ => .error (),
    channelVideosResp := fun _ => .error (), tokenResp := .error (),
    subredditResp := fun _ => .error (), llmResp := fun _ => .error (),
    jsonParse := fun _ => .error (), now := 0 }

/-- The end-to-end example request of the spec: fitness audience, one
competitor channel, one subreddit. -/
def reqFitness : Req :=
  { method := "POST",
    body := .vobj [("audience", .vstr "fitness beginners"),
                   ("goal", .vstr "grow a YouTube channel"),
                   ("competitorYouTubeChannels", .varr [.vstr "Athlean-X"]),
                   ("relevantSubreddits", .varr [.vstr "r/fitness"])] }

/-- **C2.** For every POST request whose body is missing `audience`,
missing `goal`, or whose `competitorYouTubeChannels` or
`relevantSubreddits` field is not an array, the handler returns status
400 and issues zero upstream calls. -/
theorem C2_missing_fields_400_no_calls (req : Req) (cfg : Config) (env : Env)
    (st : RedditToken) (hm : req.method = "POST")
    (h : bodyField req ("audience") = .vundefined ∨ bodyField req ("goal") = .vundefined
      ∨ (bodyField req ("competitorYouTubeChannels")).isArray = false
      ∨ (bodyField req ("relevantSubreddits")).isArray = false) :
    handler req cfg env st
      = ({ status := 400, body := some invalidBodyResponse }, st, []) := by
  rcases h with h | h | h | h <;> simp [handler, hm, h, JsVal.truthy]

/-- Witness for C2: an empty body object is rejected with 400 and an
empty call trace. -/
theorem C2_missing_fields_400_no_calls_witness :
    handler { method := "POST", body := .vobj [] } cfgAll envErr redditTokenInit
      = ({ status := 400, body := some invalidBodyResponse }, redditTokenInit, []) :=
  C2_missing_fields_400_no_calls _ cfgAll envErr redditTokenInit rfl (Or.inl rfl)

/-- **C10.** A POST whose `audience` or `goal` is present but falsy (or
whose list fields are not arrays) is rejected with 400 and zero upstream
calls, and a request with no body at all is coerced to `{}` and likewise
rejected without throwing. -/
theorem C10_falsy_fields_rejected (req : Req) (cfg : Config) (env : Env)
    (st : RedditToken) (hm : req.method = "POST") :
    ((bodyField req ("audience")).truthy = false
        ∨ (bodyField req ("goal")).truthy = false
        ∨ (bodyField req ("competitorYouTubeChannels")).isArray = false
        ∨ (bodyField req ("relevantSubreddits")).isArray = false →
      handler req cfg env st
        = ({ status := 400, body := some invalidBodyResponse }, st, []))
    ∧ (req.body = .vundefined →
        coercedBody req = .vobj []
        ∧ handler req cfg env st
            = ({ status := 400, body := some invalidBodyResponse }, st, [])) := by
  constructor
  · intro h
    rcases h with h | h | h | h <;> simp [handler, hm, h]
  · intro hb
    have hcb : coercedBody req = .vobj [] := by
      simp [coercedBody, hb, JsVal.truthy]
    have ha : (bodyField req ("audience")).truthy = false := by
      simp [bodyField, hcb, jsGetD, jsGet, JsVal.truthy]
    exact ⟨hcb, by simp [handler, hm, ha]⟩

/-- Witness for C10: an empty-string `audience` is rejected, and a
body-less request is coerced to `{}` and rejected. -/
theorem C10_falsy_fields_rejected_witness :
    handler { method := "POST",
              body := .vobj [("audience", .vstr ""), ("goal", .vstr "g"),
                             ("competitorYouTubeChannels", .varr []),
                             ("relevantSubreddits", .varr [])] }
        cfgAll envErr redditTokenInit
      = ({ status := 400, body := some invalidBodyResponse }, redditTokenInit, [])
    ∧ (coercedBody { method := "POST", body := .vundefined } = .vobj []
        ∧ handler { method := "POST", body := .vundefined } cfgAll envErr redditTokenInit
            = ({ status := 400, body := some invalidBodyResponse }, redditTokenInit, [])) :=
  ⟨(C10_falsy_fields_rejected _ cfgAll envErr redditTokenInit rfl).1 (Or.inl rfl),
   (C10_falsy_fields_rejected _ cfgAll envErr redditTokenInit rfl).2 rfl⟩

/-- **C6.** The token cache: a present (truthy) cached token whose
expiry is strictly in the future is returned with no exchange call — so
a whole repeat request in the same process issues zero exchanges —
while otherwise an exchange is performed and, on success, the fresh
token is stored with the fixed 50-minute window and returned. -/
theorem C6_token_cache (env : Env) (st : RedditToken) :
    (cacheValid env st → getRedditAccessToken env st = (st.value, st, []))
    ∧ (¬ cacheValid env st → ∀ resp tok, jsonOf env.tokenResp = .ok resp →
        jsGet resp ("access_token") = .ok tok → tok.truthy = true →
        getRedditAccessToken env st
          = (tok, { value := tok, expires := env.now + 50 * 60 * 1000 },
              [CallEvent.tokenExchange]))
    ∧ (cacheValid env st → ∀ req cfg,
        countEvents isTokenExchange (handler req cfg env st).2.2 = 0) := by
  refine ⟨getRedditAccessToken_hit env st, ?_, ?_⟩
  · intro hmiss resp tok h1 h2 h3
    exact getRedditAccessToken_refresh env st hmiss resp tok h1 h2 h3
  · intro hcv req cfg
    rcases handler_trace_cases req cfg env st with h | h
    · rw [h]; rfl
    · rw [h, dataPipeline_count_decomp, getRedditAccessToken_hit env st hcv]
      obtain ⟨names, hn⟩ :=
        fetchSubreddits_events_shape (bodyField req ("relevantSubreddits")).arrElems env
      have hsubc : countEvents isTokenExchange (names.map CallEvent.subredditFetch) = 0 :=
        countEvents_map_false _ _ _ (fun _ => rfl)
      have hchc : countEvents isTokenExchange
          ((bodyField req ("competitorYouTubeChannels")).arrElems.map CallEvent.channelFetch) = 0 :=
        countEvents_map_false _ _ _ (fun _ => rfl)
      cases hfs : (fetchSubreddits (bodyField req ("relevantSubreddits")).arrElems env).1 <;>
        simp [hcv.1, hn, hfs, hsubc, hchc, isTokenExchange, countEvents]

/-- Witness for C6: a cached token with a future expiry is served as-is,
and a full request on that cache state issues zero exchange calls. -/
theorem C6_token_cache_witness :
    getRedditAccessToken envErr { value := .vstr "tok", expires := 100 }
      = (.vstr "tok", { value := .vstr "tok", expires := 100 }, [])
    ∧ countEvents isTokenExchange
        (handler reqFitness cfgAll envErr { value := .vstr "tok", expires := 100 }).2.2 = 0 :=
  ⟨(C6_token_cache envErr { value := .vstr "tok", expires := 100 }).1 ⟨rfl, by decide⟩,
   (C6_token_cache envErr { value := .vstr "tok", expires := 100 }).2.2
     ⟨rfl, by decide⟩ reqFitness cfgAll⟩

/-- **C9.** A failed credential exchange leaves the module-level token
cache completely unchanged; the cache is only ever overwritten by a
successful exchange that returned a truthy token, stored with the fixed
50-minute window. -/
theorem C9_cache_unchanged_on_failure (env : Env) (st : RedditToken) :
    (exchangeFails env → (getRedditAccessToken env st).2.1 = st)
    ∧ ((getRedditAccessToken env st).2.1 = st
        ∨ ∃ resp tok, jsonOf env.tokenResp = .ok resp
            ∧ jsGet resp ("access_token") = .ok tok ∧ tok.truthy = true
            ∧ (getRedditAccessToken env st).2.1
                = { value := tok, expires := env.now + 50 * 60 * 1000 }) := by
  constructor
  · intro hf
    by_cases hcv : cacheValid env st
    · rw [getRedditAccessToken_hit env st hcv]
    · rw [getRedditAccessToken_fail env st hcv hf]
  · rcases getRedditAccessToken_state env st with h | ⟨resp, tok, h1, h2, h3, h4, _⟩
    · exact Or.inl h
    · exact Or.inr ⟨resp, tok, h1, h2, h3, h4⟩

/-- Witness for C9: a network error on the exchange leaves the initial
cache state untouched. -/
theorem C9_cache_unchanged_on_failure_witness :
    (getRedditAccessToken envErr redditTokenInit).2.1 = redditTokenInit :=
  (C9_cache_unchanged_on_failure envErr redditTokenInit).1 (Or.inl rfl)

/-- **C7.** For a valid request with secrets present, a failed token
exchange is not fatal: the token routine returns `null`, no subreddit
fetch is attempted, and the request still proceeds to prompt assembly
and synthesis (exactly one LLM call). -/
theorem C7_token_failure_degrades (req : Req) (cfg : Config) (env : Env)
    (st : RedditToken) (hv : validPost req) (hk : secretsOk cfg = true)
    (hmiss : ¬ cacheValid env st) (hf : exchangeFails env) :
    (getRedditAccessToken env st).1 = .vnull
    ∧ countEvents isSubredditFetch (handler req cfg env st).2.2 = 0
    ∧ countEvents isLlmCall (handler req cfg env st).2.2 = 1 := by
  have hfail := getRedditAccessToken_fail env st hmiss hf
  have hchc1 : countEvents isSubredditFetch
      ((bodyField req ("competitorYouTubeChannels")).arrElems.map CallEvent.channelFetch) = 0 :=
    countEvents_map_false _ _ _ (fun _ => rfl)
  have hchc2 : countEvents isLlmCall
      ((bodyField req ("competitorYouTubeChannels")).arrElems.map CallEvent.channelFetch) = 0 :=
    countEvents_map_false _ _ _ (fun _ => rfl)
  refine ⟨by rw [hfail], ?_, ?_⟩
  · rw [handler_valid req cfg env st hv hk, dataPipeline_count_decomp, hfail]
    simp [JsVal.truthy, hchc1, countEvents, isSubredditFetch]
  · rw [handler_valid req cfg env st hv hk, dataPipeline_count_decomp, hfail]
    simp [JsVal.truthy, hchc2, countEvents, isLlmCall]

/-- Witness for C7: the fitness request with a network-dead oracle. -/
theorem C7_token_failure_degrades_witness :
    (getRedditAccessToken envErr redditTokenInit).1 = .vnull
    ∧ countEvents isSubredditFetch
        (handler reqFitness cfgAll envErr redditTokenInit).2.2 = 0
    ∧ countEvents isLlmCall
        (handler reqFitness cfgAll envErr redditTokenInit).2.2 = 1 :=
  C7_token_failure_degrades reqFitness cfgAll envErr redditTokenInit
    ⟨rfl, rfl, rfl, rfl, rfl⟩ rfl (fun h => Bool.noConfusion h.1) (Or.inl rfl)

/-- A successful HTTP response whose body parses to `v`. -/
def respOkJson (v : JsVal) : FetchOutcome :=
  .ok { ok := true, statusText := "OK", json := .ok v }

/-- A non-OK hot-post response carrying a well-shaped JSON body. -/
def subRespNonOk : HttpResp :=
  { ok := false, statusText := "Too Many Requests",
    json := .ok (.vobj [("data", .vobj [("children",
      .varr [.vobj [("data", .vobj [("title", .vstr "p1")])]])])]) }

/-- A non-OK channel-search response carrying a well-shaped JSON body. -/
def chanSearchRespNonOk : HttpResp :=
  { ok := false, statusText := "Too Many Requests",
    json := .ok (.vobj [("items",
      .varr [.vobj [("id", .vobj [("channelId", .vstr "UC1")])]])]) }

/-- A non-OK channel-videos response carrying a well-shaped JSON body. -/
def chanVideosRespNonOk : HttpResp :=
  { ok := false, statusText := "Too Many Requests",
    json := .ok (.vobj [("items",
      .varr [.vobj [("snippet", .vobj [("title", .vstr "cv1")])]])]) }

/-- An oracle whose channel and subreddit endpoints answer with non-OK
HTTP statuses but well-shaped JSON bodies. -/
def envNonOk : Env :=
  { searchVideosResp := fun _ => .error (),
    channelSearchResp := fun _ => .ok chanSearchRespNonOk,
    channelVideosResp := fun _ => .ok chanVideosRespNonOk,
    tokenResp := .error (),
    subredditResp := fun _ => .ok subRespNonOk,
    llmResp := fun _ => .error (),
    jsonParse := fun _ => .error (),
    now := 0 }

/-- Counterexample to C4 as stated: a non-OK HTTP status is a failure
the claim says each fetcher turns into `[]`, yet the channel and
subreddit fetchers never consult `response.ok` — on a non-OK response
with a well-shaped JSON body both return non-empty data. -/
theorem C4_counterexample :
    envNonOk.subredditResp ("fitness") = .ok subRespNonOk
    ∧ subRespNonOk.ok = false
    ∧ (getSubredditPosts ("fitness") envNonOk).1 = [.vobj [("title", .vstr "p1")]]
    ∧ envNonOk.channelSearchResp (.vstr "Athlean-X") = .ok chanSearchRespNonOk
    ∧ chanSearchRespNonOk.ok = false
    ∧ chanVideosRespNonOk.ok = false
    ∧ (getChannelVideos (.vstr "Athlean-X") envNonOk).1 = [.vobj [("title", .vstr "cv1")]] :=
  ⟨rfl, rfl, rfl, rfl, rfl, rfl, rfl⟩

/-- **C4 (amended).** Each of the three fetchers returns `[]` rather
than raising on a network error, a non-JSON body, or a malformed
response shape, and the keyword-search fetcher also on a non-OK HTTP
status; the channel and subreddit fetchers never check the HTTP status,
so a non-OK response with a well-shaped JSON body is processed as
ordinary data (and can yield non-empty results).  A channel name with
no search match yields `[]`, and the overall request still completes
with 200 whenever the synthesis call succeeds. -/
theorem C4_fetchers_degrade (env : Env) :
    (∀ q, (env.searchVideosResp q = .error ()
        ∨ (∃ r, env.searchVideosResp q = .ok r ∧ r.ok = false)
        ∨ (∃ r, env.searchVideosResp q = .ok r ∧ r.json = .error ())
        ∨ (∃ r data, env.searchVideosResp q = .ok r ∧ r.ok = true ∧ r.json = .ok data
            ∧ itemsToRecords data = .error ())) →
      (searchYouTubeVideos q env).1 = [])
    ∧ (∀ c, jsonOf (env.channelSearchResp c) = .error () →
        (getChannelVideos c env).1 = [])
    ∧ (∀ c data, jsonOf (env.channelSearchResp c) = .ok data →
        jsGet data ("items") = .error () →
        (getChannelVideos c env).1 = [])
    ∧ (∀ c data items, jsonOf (env.channelSearchResp c) = .ok data →
        jsGet data ("items") = .ok items → noChannelMatch items = true →
        (getChannelVideos c env).1 = [])
    ∧ (∀ c data items first idObj channelId,
        jsonOf (env.channelSearchResp c) = .ok data →
        jsGet data ("items") = .ok items → noChannelMatch items = false →
        jsIndex items 0 = .ok first → jsGet first ("id") = .ok idObj →
        jsGet idObj ("channelId") = .ok channelId →
        jsonOf (env.channelVideosResp channelId) = .error () →
        (getChannelVideos c env).1 = [])
    ∧ (∀ c data items first idObj channelId vids,
        jsonOf (env.channelSearchResp c) = .ok data →
        jsGet data ("items") = .ok items → noChannelMatch items = false →
        jsIndex items 0 = .ok first → jsGet first ("id") = .ok idObj →
        jsGet idObj ("channelId") = .ok channelId →
        jsonOf (env.channelVideosResp channelId) = .ok vids →
        itemsToRecords vids = .error () →
        (getChannelVideos c env).1 = [])
    ∧ (∀ c data items first idObj channelId vids recs,
        jsonOf (env.channelSearchResp c) = .ok data →
        jsGet data ("items") = .ok items → noChannelMatch items = false →
        jsIndex items 0 = .ok first → jsGet first ("id") = .ok idObj →
        jsGet idObj ("channelId") = .ok channelId →
        jsonOf (env.channelVideosResp channelId) = .ok vids →
        itemsToRecords vids = .ok recs →
        (getChannelVideos c env).1 = recs)
    ∧ (∀ s, jsonOf (env.subredditResp s) = .error () →
        (getSubredditPosts s env).1 = [])
    ∧ (∀ s data, jsonOf (env.subredditResp s) = .ok data →
        subredditRecords data = .error () →
        (getSubredditPosts s env).1 = [])
    ∧ (∀ s data recs, jsonOf (env.subredditResp s) = .ok data →
        subredditRecords data = .ok recs →
        (getSubredditPosts s env).1 = recs)
    ∧ (∀ req cfg st v, validPost req → secretsOk cfg = true →
        (∀ x ∈ (bodyField req ("relevantSubreddits")).arrElems, ∃ t, x = JsVal.vstr t) →
        (∀ p, (callOpenAI_API p env).1 = .ok v) →
        (handler req cfg env st).1.status = 200) := by
  refine ⟨?_, ?_, ?_, ?_, ?_, ?_, ?_, ?_, ?_, ?_, ?_⟩
  · intro q h
    rcases h with h | ⟨r, h, hok⟩ | ⟨r, h, hj⟩ | ⟨r, data, h, hok, hj, hm⟩
    · simp [searchYouTubeVideos, searchYouTubeVideosTry, orEmpty, h]
    · simp [searchYouTubeVideos, searchYouTubeVideosTry, orEmpty, h, hok]
    · rcases Bool.eq_false_or_eq_true r.ok with hok | hok <;>
        simp [searchYouTubeVideos, searchYouTubeVideosTry, orEmpty, h, hj, hok]
    · simp [searchYouTubeVideos, searchYouTubeVideosTry, orEmpty, h, hok, hj, hm]
  · intro c h
    simp [getChannelVideos, getChannelVideosTry, orEmpty, h]
  · intro c data h hi
    simp [getChannelVideos, getChannelVideosTry, orEmpty, h, hi]
  · intro c data items h hi hm
    simp [getChannelVideos, getChannelVideosTry, orEmpty, h, hi, hm]
  · intro c data items first idObj channelId h hi hm h0 hid hcid hv
    simp [getChannelVideos, getChannelVideosTry, orEmpty, h, hi, hm, h0, hid, hcid, hv]
  · intro c data items first idObj channelId vids h hi hm h0 hid hcid hv hr
    simp [getChannelVideos, getChannelVideosTry, orEmpty, h, hi, hm, h0, hid, hcid, hv, hr]
  · intro c data items first idObj channelId vids recs h hi hm h0 hid hcid hv hr
    simp [getChannelVideos, getChannelVideosTry, orEmpty, h, hi, hm, h0, hid, hcid, hv, hr]
  · intro s h
    simp [getSubredditPosts, getSubredditPostsTry, orEmpty, h]
  · intro s data h hr
    simp [getSubredditPosts, getSubredditPostsTry, orEmpty, h, hr]
  · intro s data recs h hr
    simp [getSubredditPosts, getSubredditPostsTry, orEmpty, h, hr]
  · intro req cfg st v hv hk hstr hllm
    rw [handler_valid req cfg env st hv hk]
    unfold dataPipeline
    cases htok : (getRedditAccessToken env st).1.truthy
    · simp [htok, hllm]
    · obtain ⟨⟨l, hl⟩, _⟩ := fetchSubreddits_strings _ env hstr
      simp [htok, hl, hllm]

/-- The OpenAI completion response whose content is the string `"x"`. -/
def llmOkResp : FetchOutcome :=
  respOkJson (.vobj [("choices",
    .varr [.vobj [("message", .vobj [("content", .vstr "x")])]])])

/-- An oracle for C4: the keyword search, video listing, token and
subreddit endpoints fail, the channel search finds no channel, and the
synthesis call succeeds with `{}`. -/
def envC4 : Env :=
  { searchVideosResp := fun _ => .error (),
    channelSearchResp := fun _ => respOkJson (.vobj [("items", .varr [])]),
    channelVideosResp := fun _ => .error (),
    tokenResp := .error (),
    subredditResp := fun _ => .error (),
    llmResp := fun _ => llmOkResp,
    jsonParse := fun _ => .ok (.vobj []),
    now := 0 }

/-- Witness for the amended C4: degraded fetchers yield `[]`, the
no-match request still answers 200, and the status-blind channel and
subreddit fetchers return non-empty data on non-OK responses. -/
theorem C4_fetchers_degrade_witness :
    (searchYouTubeVideos ("q") envC4).1 = []
    ∧ (getChannelVideos (.vstr "Athlean-X") envC4).1 = []
    ∧ (getSubredditPosts ("fitness") envC4).1 = []
    ∧ (handler reqFitness cfgAll envC4 redditTokenInit).1.status = 200
    ∧ (getSubredditPosts ("fitness") envNonOk).1 = [.vobj [("title", .vstr "p1")]]
    ∧ (getChannelVideos (.vstr "Athlean-X") envNonOk).1 = [.vobj [("title", .vstr "cv1")]] :=
  ⟨(C4_fetchers_degrade envC4).1 ("q") (Or.inl rfl),
   (C4_fetchers_degrade envC4).2.2.2.1 (.vstr "Athlean-X")
     (.vobj [("items", .varr [])]) (.varr []) rfl rfl rfl,
   (C4_fetchers_degrade envC4).2.2.2.2.2.2.2.1 ("fitness") rfl,
   (C4_fetchers_degrade envC4).2.2.2.2.2.2.2.2.2.2 reqFitness cfgAll redditTokenInit
     (.vobj []) ⟨rfl, rfl, rfl, rfl, rfl⟩ rfl
     (fun x hx => ⟨"r/fitness", by
        rw [show (bodyField reqFitness ("relevantSubreddits")).arrElems
              = [JsVal.vstr "r/fitness"] from rfl, List.mem_singleton] at hx
        exact hx⟩)
     (fun _ => rfl),
   (C4_fetchers_degrade envNonOk).2.2.2.2.2.2.2.2.2.1 ("fitness")
     (.vobj [("data", .vobj [("children",
        .varr [.vobj [("data", .vobj [("title", .vstr "p1")])]])])])
     [.vobj [("title", .vstr "p1")]] rfl rfl,
   (C4_fetchers_degrade envNonOk).2.2.2.2.2.2.1 (.vstr "Athlean-X")
     (.vobj [("items", .varr [.vobj [("id", .vobj [("channelId", .vstr "UC1")])]])])
     (.varr [.vobj [("id", .vobj [("channelId", .vstr "UC1")])]])
     (.vobj [("id", .vobj [("channelId", .vstr "UC1")])])
     (.vobj [("channelId", .vstr "UC1")])
     (.vstr "UC1")
     (.vobj [("items", .varr [.vobj [("snippet", .vobj [("title", .vstr "cv1")])]])])
     [.vobj [("title", .vstr "cv1")]]
     rfl rfl rfl rfl rfl rfl rfl rfl⟩

/-- **C5.** A non-success HTTP status, a non-JSON body, or unparseable
message content all make the synthesizer raise the single normalized
error `"Failed to get a valid response from the OpenAI API."` (no
retry), and the handler then answers 500 with that message and no
fetched data in the body. -/
theorem C5_synthesis_failure_normalized (env : Env) :
    (∀ p r, env.llmResp p = .ok r → r.ok = false →
      (callOpenAI_API p env).1 = .error openAIFailMsg)
    ∧ (∀ p r, env.llmResp p = .ok r → r.json = .error () →
      (callOpenAI_API p env).1 = .error openAIFailMsg)
    ∧ (∀ p r data content, env.llmResp p = .ok r → r.ok = true →
        r.json = .ok data → llmContent data = .ok content →
        env.jsonParse (jsToString content) = .error () →
      (callOpenAI_API p env).1 = .error openAIFailMsg)
    ∧ (∀ req cfg st, validPost req → secretsOk cfg = true →
        (∀ x ∈ (bodyField req ("relevantSubreddits")).arrElems, ∃ t, x = JsVal.vstr t) →
        (∀ p, (callOpenAI_API p env).1 = .error openAIFailMsg) →
        (handler req cfg env st).1
          = { status := 500, body := some (internalErrorBody openAIFailMsg) }) := by
  refine ⟨?_, ?_, ?_, ?_⟩
  · intro p r h hok
    simp [callOpenAI_API, callOpenAI_APITry, normalizeErr, h, hok]
  · intro p r h hj
    rcases Bool.eq_false_or_eq_true r.ok with hok | hok <;>
      simp [callOpenAI_API, callOpenAI_APITry, normalizeErr, h, hj, hok]
  · intro p r data content h hok hj hc hp
    simp [callOpenAI_API, callOpenAI_APITry, normalizeErr, h, hok, hj, hc, hp]
  · intro req cfg st hv hk hstr hllm
    rw [handler_valid req cfg env st hv hk]
    unfold dataPipeline
    cases htok : (getRedditAccessToken env st).1.truthy
    · simp [htok, hllm]
    · obtain ⟨⟨l, hl⟩, _⟩ := fetchSubreddits_strings _ env hstr
      simp [htok, hl, hllm]

/-- An oracle whose synthesis endpoint answers with a non-success
status and a non-JSON body, everything else failing too. -/
def envLlmBad : Env :=
  { searchVideosResp := fun _ => .error (), channelSearchResp := fun _ => .error (),
    channelVideosResp := fun _ => .error (), tokenResp := .error (),
    subredditResp := fun _ => .error (),
    llmResp := fun _ => .ok { ok := false, statusText := "Bad Request", json := .error () },
    jsonParse := fun _ => .error (), now := 0 }

/-- Witness for C5: the normalized error and the 500 response with only
the error/details fields. -/
theorem C5_synthesis_failure_normalized_witness :
    (callOpenAI_API ("p") envLlmBad).1 = .error openAIFailMsg
    ∧ (handler reqFitness cfgAll envLlmBad redditTokenInit).1
        = { status := 500, body := some (internalErrorBody openAIFailMsg) } :=
  ⟨(C5_synthesis_failure_normalized envLlmBad).1 ("p")
      { ok := false, statusText := "Bad Request", json := .error () } rfl rfl,
   (C5_synthesis_failure_normalized envLlmBad).2.2.2 reqFitness cfgAll redditTokenInit
      ⟨rfl, rfl, rfl, rfl, rfl⟩ rfl
      (fun x hx => ⟨"r/fitness", by
        rw [show (bodyField reqFitness ("relevantSubreddits")).arrElems
              = [JsVal.vstr "r/fitness"] from rfl, List.mem_singleton] at hx
        exact hx⟩)
      (fun p => (C5_synthesis_failure_normalized envLlmBad).1 p
        { ok := false, statusText := "Bad Request", json := .error () } rfl rfl)⟩

/-- A section interpolated through `x || fallback` is never empty when
the fallback is not. -/
theorem sectionOr_ne_empty (t fb : String) (hfb : fb ≠ "") :
    sectionOr t fb ≠ "" := by
  unfold sectionOr
  split
  · exact hfb
  · assumption

/-- **C8.** Whenever a data source yields nothing, the prompt assembler
substitutes the fallback placeholder for that section (`"No data
collected."` in the OpenAI variant, `"N/A"` in the Gemini variant), so
every data section of either prompt is a non-empty string. -/
theorem C8_prompt_fallback_sections
    (top : List JsVal) (comp reddit : List (JsVal × List JsVal)) :
    (top = [] → titlesJoined top = ""
      ∧ sectionOr (titlesJoined top) noDataStr = noDataStr
      ∧ sectionOr (titlesJoined top) naStr = naStr)
    ∧ (comp = [] → competitorTitlesString comp = ""
      ∧ sectionOr (competitorTitlesString comp) noDataStr = noDataStr
      ∧ sectionOr (competitorTitlesString comp) naStr = naStr)
    ∧ (reddit = [] → redditTitlesString reddit = ""
      ∧ sectionOr (redditTitlesString reddit) noDataStr = noDataStr
      ∧ sectionOr (redditTitlesString reddit) naStr = naStr)
    ∧ sectionOr (titlesJoined top) noDataStr ≠ ""
    ∧ sectionOr (competitorTitlesString comp) noDataStr ≠ ""
    ∧ sectionOr (redditTitlesString reddit) noDataStr ≠ ""
    ∧ sectionOr (titlesJoined top) naStr ≠ ""
    ∧ sectionOr (competitorTitlesString comp) naStr ≠ ""
    ∧ sectionOr (redditTitlesString reddit) naStr ≠ "" := by
  refine ⟨?_, ?_, ?_, ?_, ?_, ?_, ?_, ?_, ?_⟩
  · intro h; subst h; exact ⟨rfl, rfl, rfl⟩
  · intro h; subst h; exact ⟨rfl, rfl, rfl⟩
  · intro h; subst h; exact ⟨rfl, rfl, rfl⟩
  all_goals first
    | exact sectionOr_ne_empty _ noDataStr (by decide)
    | exact sectionOr_ne_empty _ naStr (by decide)

/-- Witness for C8: empty data sources produce exactly the placeholder
sections. -/
theorem C8_prompt_fallback_sections_witness :
    sectionOr (titlesJoined []) noDataStr = noDataStr
    ∧ sectionOr (competitorTitlesString []) noDataStr = noDataStr
    ∧ sectionOr (redditTitlesString []) naStr = naStr
    ∧ sectionOr (titlesJoined []) noDataStr ≠ "" :=
  ⟨((C8_prompt_fallback_sections [] [] []).1 rfl).2.1,
   ((C8_prompt_fallback_sections [] [] []).2.1 rfl).2.1,
   ((C8_prompt_fallback_sections [] [] []).2.2.1 rfl).2.2,
   (C8_prompt_fallback_sections [] [] []).2.2.2.1⟩

/-- Counterexample to C3 as stated: the fitness request is a valid POST
with all four secrets present and one configured subreddit, yet when the
token exchange fails (network error) the handler issues zero subreddit
fetches, not one per element. -/
theorem C3_counterexample :
    (bodyField reqFitness ("relevantSubreddits")).arrElems.length = 1
    ∧ validPost reqFitness
    ∧ secretsOk cfgAll = true
    ∧ countEvents isSubredditFetch
        (handler reqFitness cfgAll envErr redditTokenInit).2.2 = 0 :=
  ⟨rfl, ⟨rfl, rfl, rfl, rfl, rfl⟩, rfl, rfl⟩

/-- **C3 (amended).** For every valid POST request with the four
secrets present, whose subreddit entries are strings, and for which a
Reddit token is available (cached and unexpired, or obtained by a
successful exchange), the handler invokes the channel-video fetch once
per channel, the subreddit fetch once per subreddit, the keyword search
exactly once, and the token exchange at most once — zero times when the
cached token is still valid. -/
theorem C3_call_counts (req : Req) (cfg : Config) (env : Env) (st : RedditToken)
    (hv : validPost req) (hk : secretsOk cfg = true)
    (htok : cacheValid env st ∨ exchangeSucceeds env)
    (hstr : ∀ x ∈ (bodyField req ("relevantSubreddits")).arrElems, ∃ t, x = JsVal.vstr t) :
    countEvents isVideoSearch (handler req cfg env st).2.2 = 1
    ∧ countEvents isChannelFetch (handler req cfg env st).2.2
        = (bodyField req ("competitorYouTubeChannels")).arrElems.length
    ∧ countEvents isSubredditFetch (handler req cfg env st).2.2
        = (bodyField req ("relevantSubreddits")).arrElems.length
    ∧ countEvents isTokenExchange (handler req cfg env st).2.2 ≤ 1
    ∧ (cacheValid env st →
        countEvents isTokenExchange (handler req cfg env st).2.2 = 0) := by
  have htk : (getRedditAccessToken env st).1.truthy = true
      ∧ ((getRedditAccessToken env st).2.2 = []
          ∨ (getRedditAccessToken env st).2.2 = [CallEvent.tokenExchange]) := by
    rcases htok with hcv | ⟨resp, tok, h1, h2, h3⟩
    · rw [getRedditAccessToken_hit env st hcv]
      exact ⟨hcv.1, Or.inl rfl⟩
    · by_cases hcv : cacheValid env st
      · rw [getRedditAccessToken_hit env st hcv]
        exact ⟨hcv.1, Or.inl rfl⟩
      · rw [getRedditAccessToken_refresh env st hcv resp tok h1 h2 h3]
        exact ⟨h3, Or.inr rfl⟩
  obtain ⟨⟨l, hl⟩, names, hn, hlen⟩ := fetchSubreddits_strings _ env hstr
  rw [handler_valid req cfg env st hv hk]
  refine ⟨?_, ?_, ?_, ?_, ?_⟩
  · rw [dataPipeline_count_decomp]
    have h2 : countEvents isVideoSearch
        ((bodyField req ("competitorYouTubeChannels")).arrElems.map CallEvent.channelFetch) = 0 :=
      countEvents_map_false _ _ _ (fun _ => rfl)
    have h4 : countEvents isVideoSearch (names.map CallEvent.subredditFetch) = 0 :=
      countEvents_map_false _ _ _ (fun _ => rfl)
    simp only [countEvents] at h2 h4
    rcases htk.2 with h3 | h3 <;>
      simp [htk.1, h3, hn, hl, countEvents, isVideoSearch] <;> omega
  · rw [dataPipeline_count_decomp]
    have h2 : countEvents isChannelFetch
        ((bodyField req ("competitorYouTubeChannels")).arrElems.map CallEvent.channelFetch)
          = (bodyField req ("competitorYouTubeChannels")).arrElems.length :=
      countEvents_map_true _ _ _ (fun _ => rfl)
    have h4 : countEvents isChannelFetch (names.map CallEvent.subredditFetch) = 0 :=
      countEvents_map_false _ _ _ (fun _ => rfl)
    simp only [countEvents] at h2 h4
    rcases htk.2 with h3 | h3 <;>
      simp [htk.1, h3, hn, hl, countEvents, isChannelFetch] <;> omega
  · rw [dataPipeline_count_decomp]
    have h2 : countEvents isSubredditFetch
        ((bodyField req ("competitorYouTubeChannels")).arrElems.map CallEvent.channelFetch) = 0 :=
      countEvents_map_false _ _ _ (fun _ => rfl)
    have h4 : countEvents isSubredditFetch (names.map CallEvent.subredditFetch)
        = names.length :=
      countEvents_map_true _ _ _ (fun _ => rfl)
    simp only [countEvents] at h2 h4
    rcases htk.2 with h3 | h3 <;>
      simp [htk.1, h3, hn, hl, countEvents, isSubredditFetch] <;> omega
  · rw [dataPipeline_count_decomp]
    have h2 : countEvents isTokenExchange
        ((bodyField req ("competitorYouTubeChannels")).arrElems.map CallEvent.channelFetch) = 0 :=
      countEvents_map_false _ _ _ (fun _ => rfl)
    have h4 : countEvents isTokenExchange (names.map CallEvent.subredditFetch) = 0 :=
      countEvents_map_false _ _ _ (fun _ => rfl)
    simp only [countEvents] at h2 h4
    rcases htk.2 with h3 | h3 <;>
      simp [htk.1, h3, hn, hl, countEvents, isTokenExchange] <;> omega
  · intro hcv
    rw [dataPipeline_count_decomp, getRedditAccessToken_hit env st hcv]
    have h2 : countEvents isTokenExchange
        ((bodyField req ("competitorYouTubeChannels")).arrElems.map CallEvent.channelFetch) = 0 :=
      countEvents_map_false _ _ _ (fun _ => rfl)
    have h4 : countEvents isTokenExchange (names.map CallEvent.subredditFetch) = 0 :=
      countEvents_map_false _ _ _ (fun _ => rfl)
    simp only [countEvents] at h2 h4
    simp [hcv.1, hn, hl, countEvents, isTokenExchange]

/-- An oracle where only the token exchange succeeds. -/
def envTok : Env :=
  { envErr with tokenResp := respOkJson (.vobj [("access_token", .vstr "tok")]) }

/-- Witness for the amended C3: the fitness request against `envTok`
issues exactly one search, one channel fetch, one subreddit fetch, and
at most one exchange. -/
theorem C3_call_counts_witness :
    countEvents isVideoSearch (handler reqFitness cfgAll envTok redditTokenInit).2.2 = 1
    ∧ countEvents isChannelFetch (handler reqFitness cfgAll envTok redditTokenInit).2.2 = 1
    ∧ countEvents isSubredditFetch (handler reqFitness cfgAll envTok redditTokenInit).2.2 = 1
    ∧ countEvents isTokenExchange (handler reqFitness cfgAll envTok redditTokenInit).2.2 ≤ 1 := by
  obtain ⟨c1, c2, c3, c4, _⟩ := C3_call_counts reqFitness cfgAll envTok redditTokenInit
    ⟨rfl, rfl, rfl, rfl, rfl⟩ rfl
    (Or.inr ⟨.vobj [("access_token", .vstr "tok")], .vstr "tok", rfl, rfl, rfl⟩)
    (fun x hx => ⟨"r/fitness", by
        rw [show (bodyField reqFitness ("relevantSubreddits")).arrElems
              = [JsVal.vstr "r/fitness"] from rfl, List.mem_singleton] at hx
        exact hx⟩)
  exact ⟨c1, c2, c3, c4⟩

/-- The four top-level keys the spec asserts for the response. -/
def strategyKeys : List String :=
  ["trendDiscovery", "contentAnalysis", "competitorReport", "strategyCalendar"]

/-- The five keys of a calendar entry. -/
def calendarKeys : List String :=
  ["day", "platform", "title", "format", "description"]

/-- Does a calendar entry carry the five required keys? -/
def hasCalendarKeys (e : JsVal) : Bool :=
  match e with
  | .vobj fs => calendarKeys.all fun k => (fs.lookup k).isSome
  | _ => false

/-- The response schema claimed by the spec: a JSON object with exactly
the four strategy keys, whose `strategyCalendar` is an array of exactly
30 entries each carrying the five calendar keys.  (This predicate
follows the spec wording; the code never validates it.) -/
def hasStrategySchema (v : JsVal) : Bool :=
  match v with
  | .vobj fs =>
      ((fs.map Prod.fst).all fun k => strategyKeys.contains k)
        && (strategyKeys.all fun k => (fs.map Prod.fst).contains k)
        && (match fs.lookup ("strategyCalendar") with
            | some (.varr es) => es.length == 30 && es.all hasCalendarKeys
            | _ => false)
  | _ => false

/-- An oracle where every upstream endpoint succeeds with well-formed
data and the synthesis content parses to `{}`. -/
def envAllOk : Env :=
  { searchVideosResp := fun _ => respOkJson
      (.vobj [("items", .varr [.vobj [("snippet", .vobj [("title", .vstr "v1")])]])]),
    channelSearchResp := fun _ => respOkJson
      (.vobj [("items", .varr [.vobj [("id", .vobj [("channelId", .vstr "UC1")])]])]),
    channelVideosResp := fun _ => respOkJson
      (.vobj [("items", .varr [.vobj [("snippet", .vobj [("title", .vstr "cv1")])]])]),
    tokenResp := respOkJson (.vobj [("access_token", .vstr "tok")]),
    subredditResp := fun _ => respOkJson
      (.vobj [("data", .vobj [("children",
        .varr [.vobj [("data", .vobj [("title", .vstr "p1")])]])])]),
    llmResp := fun _ => llmOkResp,
    jsonParse := fun _ => .ok (.vobj []),
    now := 0 }

/-- Counterexample to C1 as stated: for the spec's example request with
every upstream call succeeding, the handler does answer 200, but the
body is exactly what the LLM returned — here `{}`, which does not carry
the four keys, because the schema is never validated. -/
theorem C1_counterexample :
    (handler reqFitness cfgAll envAllOk redditTokenInit).1.status = 200
    ∧ (handler reqFitness cfgAll envAllOk redditTokenInit).1.body = some (.vobj [])
    ∧ hasStrategySchema (.vobj []) = false :=
  ⟨rfl, rfl, rfl⟩

/-- **C1 (amended).** The handler passes the synthesizer's parsed JSON
through verbatim: for the spec's example request, whenever the
synthesis call returns `v`, the response is 200 with body exactly `v` —
so it contains exactly the four keys and a 30-entry calendar precisely
when the LLM's output does. -/
theorem C1_passthrough (env : Env) (st : RedditToken) (v : JsVal)
    (hllm : ∀ p, (callOpenAI_API p env).1 = .ok v) :
    (handler reqFitness cfgAll env st).1 = { status := 200, body := some v }
    ∧ (hasStrategySchema v = true →
        ∃ b, (handler reqFitness cfgAll env st).1.body = some b
          ∧ hasStrategySchema b = true) := by
  have h200 : (handler reqFitness cfgAll env st).1
      = { status := 200, body := some v } := by
    rw [handler_valid reqFitness cfgAll env st ⟨rfl, rfl, rfl, rfl, rfl⟩ rfl]
    unfold dataPipeline
    cases htok : (getRedditAccessToken env st).1.truthy
    · simp [htok, hllm]
    · obtain ⟨⟨l, hl⟩, _⟩ :=
        fetchSubreddits_strings (bodyField reqFitness ("relevantSubreddits")).arrElems env
          (fun x hx => ⟨"r/fitness", by
            rw [show (bodyField reqFitness ("relevantSubreddits")).arrElems
                  = [JsVal.vstr "r/fitness"] from rfl, List.mem_singleton] at hx
            exact hx⟩)
      simp [htok, hl, hllm]
  exact ⟨h200, fun hs => ⟨v, by rw [h200], hs⟩⟩

/-- A calendar entry carrying the five required keys. -/
def calendarEntry (d : Int) : JsVal :=
  .vobj [("day", .vnum d), ("platform", .vstr "YouTube"),
         ("title", .vstr "t"), ("format", .vstr "YouTube Short"),
         ("description", .vstr "d")]

/-- An LLM output carrying exactly the four keys and a 30-entry calendar. -/
def strategyObj : JsVal :=
  .vobj [("trendDiscovery", .vobj []), ("contentAnalysis", .vobj []),
         ("competitorReport", .vobj []),
         ("strategyCalendar", .varr ((List.range 30).map fun d => calendarEntry d))]

/-- The fully-successful oracle whose synthesis content parses to the
schema-conforming strategy object. -/
def envSchemaOk : Env :=
  { envAllOk with jsonParse := fun _ => .ok strategyObj }

/-- Witness for the amended C1: with a schema-conforming LLM output the
response is 200 with exactly that output, which satisfies the schema. -/
theorem C1_passthrough_witness :
    (handler reqFitness cfgAll envSchemaOk redditTokenInit).1
        = { status := 200, body := some strategyObj }
    ∧ ∃ b, (handler reqFitness cfgAll envSchemaOk redditTokenInit).1.body = some b
        ∧ hasStrategySchema b = true :=
  ⟨(C1_passthrough envSchemaOk redditTokenInit strategyObj (fun _ => rfl)).1,
   (C1_passthrough envSchemaOk redditTokenInit strategyObj (fun _ => rfl)).2 rfl⟩
